import Mathlib

/-!
# Verification of the weather-app fetch-and-derive pipeline

Shallow embedding of `src/index.tsx` (the `Index` component): the
`fetchWeather` pipeline, the `handleSearch` submission handler, and the
`bgColors` theme derivation, together with theorems checking the
specification's claims about them.

Network and JSON behaviour is modelled by an oracle (`FetchEnv`) that fixes,
for each of the two `fetch` calls of a run, whether the call rejects, returns
a non-ok response, returns an ok response whose `json()` throws, or returns a
parsed value.  Thrown JavaScript values are modelled by `JSValue`: either an
`Error` instance carrying a message, or any other value (`instanceof Error`
is false).  React `useState` slots are gathered in one record `AppSt`;
each `setX` call is a functional update of that record.
-/

/-- JavaScript substring containment on `List Char`
(`String.prototype.includes`). -/
def listContains (sub : List Char) : List Char → Bool
  | [] => sub.isEmpty
  | c :: rest => sub.isPrefixOf (c :: rest) || listContains sub rest

/-- `s.includes(sub)` from JavaScript. -/
def jsIncludes (s sub : String) : Bool := listContains sub.data s.data

/-- ASCII whitespace recognised by `String.prototype.trim` (the source only
ever trims user-typed city names; the full JS definition also strips some
Unicode space code points, which no claim exercises). -/
def isJsSpace (c : Char) : Bool :=
  c == ' ' || c == '\t' || c == '\n' || c == '\r' ||
    c == Char.ofNat 11 || c == Char.ofNat 12

/-- `s.trim()` from JavaScript: whitespace stripped from both ends. -/
def jsTrim (s : String) : String :=
  String.mk (((s.data.dropWhile isJsSpace).reverse.dropWhile isJsSpace).reverse)

/-- One entry of a `weather` array: `{ main, description }`. -/
structure WeatherEntry where
  main : String
  description : String
deriving DecidableEq, Repr

/-- The `temp` field of a `ForecastItem`: a scalar for hourly points, a
`{min, max}` pair for daily points (`number | { min; max }` in the source).
Temperatures take part in no claim, so they are carried as integers. -/
inductive TempField where
  | scalar (t : Int)
  | range (min max : Int)
deriving DecidableEq, Repr

/-- `ForecastItem` from the source: `{ dt, temp, weather }`. -/
structure ForecastItem where
  dt : Int
  temp : TempField
  weather : List WeatherEntry
deriving DecidableEq, Repr

/-- The `current` field of `WeatherData`. -/
structure CurrentWeather where
  dt : Int
  sunrise : Int
  sunset : Int
  temp : Int
  feels_like : Int
  humidity : Int
  uvi : Int
  wind_speed : Int
  weather : List WeatherEntry
deriving DecidableEq, Repr

/-- The forecast response body as fetched (before the `name` field is
attached): `{ current, hourly, daily }`. -/
structure WeatherCore where
  current : CurrentWeather
  hourly : List ForecastItem
  daily : List ForecastItem
deriving DecidableEq, Repr

/-- `WeatherData` from the source: the fetched body plus the `name`
overwritten from the geocoding result. -/
structure WeatherData where
  name : String
  current : CurrentWeather
  hourly : List ForecastItem
  daily : List ForecastItem
deriving DecidableEq, Repr

/-- One element of the geocoding response array: `{ lat, lon, name }`.
Coordinates are carried as integers; they only flow into the forecast URL. -/
structure GeoHit where
  lat : Int
  lon : Int
  name : String
deriving DecidableEq, Repr

/-- A thrown JavaScript value: an `Error` instance with its `message`, or any
other value (for which `instanceof Error` is false). -/
inductive JSValue where
  | errorObj (msg : String)
  | nonErrorVal
deriving DecidableEq, Repr

/-- Outcome of one `await fetch(url)` / `await response.json()` pair:
the fetch itself may reject (`throwVal`, e.g. a network failure), the
response may be non-ok (`notOk`), `json()` may throw on a malformed body
(`okParseFail`), or a value of the expected shape is produced
(`okParsed`). -/
inductive StageOutcome (α : Type) where
  | throwVal (e : JSValue)
  | notOk
  | okParseFail (e : JSValue)
  | okParsed (v : α)
deriving DecidableEq, Repr

/-- Oracle fixing the outcome of the two network stages of one
`fetchWeather` run. -/
structure FetchEnv where
  geo : StageOutcome (List GeoHit)
  forecast : StageOutcome WeatherCore
deriving DecidableEq, Repr

/-- The React state slots of the `Index` component, one record field per
`useState`. -/
structure AppSt where
  city : String
  weatherData : Option WeatherData
  loading : Bool
  error : Option String
  searchInput : String
deriving DecidableEq, Repr

/-- The component's initial state:
`useState('Irvine')`, `useState(null)`, `useState(true)`, `useState(null)`,
`useState('')`. -/
def initState : AppSt :=
  { city := "Irvine", weatherData := none, loading := true,
    error := none, searchInput := "" }

/-- `API_KEY_PLACEHOLDER` from the source. -/
def API_KEY_PLACEHOLDER : String := "YOUR_API_KEY_HERE"

/-- A network request issued by the pipeline, with the URL it targets. -/
inductive NetRequest where
  | geoReq (url : String)
  | forecastReq (url : String)
deriving DecidableEq, Repr

/-- `geoUrl` as built in `fetchWeather`: raw template-literal interpolation
of the city name and the key. -/
def geoUrl (apiKey cityName : String) : String :=
  s!"https://api.openweathermap.org/geo/1.0/direct?q={cityName}&limit=1&appid={apiKey}"

/-- `weatherUrl` as built in `fetchWeather`. -/
def weatherUrl (apiKey : String) (lat lon : Int) : String :=
  let la := toString lat
  let lo := toString lon
  s!"https://api.openweathermap.org/data/3.0/onecall?lat={la}&lon={lo}&units=imperial&exclude=minutely,alerts&appid={apiKey}"

/-- The message the `catch` block surfaces for a thrown value `err`:
`err.message` when `err instanceof Error`, the static fallback otherwise. -/
def caughtError (e : JSValue) : String :=
  match e with
  | .errorObj msg => msg
  | .nonErrorVal => "An unknown error occurred."

/-- `fetchWeather(cityName)` from the source, instrumented with the list of
network requests it issues.  The `apiKey` is a parameter (the source
hard-codes the placeholder sentinel, to be replaced by a real key); the two
network stages are resolved by `env`.  Every enumerated failure throws a
`new Error(...)` that the shared `catch` turns into `setError(err.message)`;
`finally` clears the loading flag on every path of the `try`. -/
def fetchWeatherT (apiKey cityName : String) (env : FetchEnv) (st : AppSt) :
    AppSt × List NetRequest :=
  if cityName = "" then (st, [])
  else
    let st1 : AppSt := { st with loading := true, error := none }
    if apiKey = API_KEY_PLACEHOLDER then
      ({ st1 with error := some "Please add your OpenWeatherMap API key.",
                  loading := false }, [])
    else
      let gUrl := geoUrl apiKey cityName
      match env.geo with
      | .throwVal e =>
          ({ st1 with error := some (caughtError e), loading := false }, [.geoReq gUrl])
      | .notOk =>
          ({ st1 with error := some (caughtError (.errorObj "Failed to fetch city coordinates.")),
                      loading := false }, [.geoReq gUrl])
      | .okParseFail e =>
          ({ st1 with error := some (caughtError e), loading := false }, [.geoReq gUrl])
      | .okParsed geoData =>
          match geoData with
          | [] =>
              ({ st1 with error := some (caughtError
                    (.errorObj ("Could not find city: \"" ++ cityName ++ "\""))),
                          loading := false }, [.geoReq gUrl])
          | hit :: _ =>
              let wUrl := weatherUrl apiKey hit.lat hit.lon
              match env.forecast with
              | .throwVal e =>
                  ({ st1 with error := some (caughtError e), loading := false },
                   [.geoReq gUrl, .forecastReq wUrl])
              | .notOk =>
                  ({ st1 with error := some (caughtError
                        (.errorObj "API Key Error. Ensure it is valid and authorized for One Call API.")),
                              loading := false },
                   [.geoReq gUrl, .forecastReq wUrl])
              | .okParseFail e =>
                  ({ st1 with error := some (caughtError e), loading := false },
                   [.geoReq gUrl, .forecastReq wUrl])
              | .okParsed core =>
                  let wd : WeatherData :=
                    { name := hit.name, current := core.current,
                      hourly := core.hourly, daily := core.daily }
                  ({ st1 with weatherData := some wd, loading := false },
                   [.geoReq gUrl, .forecastReq wUrl])

/-- The state after a `fetchWeather` run (requests forgotten). -/
def fetchWeather (apiKey cityName : String) (env : FetchEnv) (st : AppSt) : AppSt :=
  (fetchWeatherT apiKey cityName env st).1

/-- `handleSearch` from the source: guarded by JavaScript truthiness of the
raw (untrimmed) `searchInput`; on a truthy input it sets `city` to the
trimmed input and clears the search field. -/
def handleSearch (st : AppSt) : AppSt :=
  if st.searchInput = "" then st
  else { st with city := jsTrim st.searchInput, searchInput := "" }

/-- One search submission: `handleSearch` runs, then the
`useEffect(..., [city, fetchWeather])` reruns `fetchWeather(city)` exactly
when the `city` value changed. -/
def submitT (apiKey : String) (env : FetchEnv) (st : AppSt) :
    AppSt × List NetRequest :=
  let st2 := handleSearch st
  if st2.city = st.city then (st2, [])
  else fetchWeatherT apiKey st2.city env st2

/-- The state after a search submission (requests forgotten). -/
def submit (apiKey : String) (env : FetchEnv) (st : AppSt) : AppSt :=
  (submitT apiKey env st).1

/-- The default 3-stop gradient the source initialises `bgColors` with. -/
def defaultPalette : List String := ["#4c669f", "#3b5998", "#192f6a"]

/-- The day/night flag computed in the `bgColors` derivation:
`current.dt > current.sunrise && current.dt < current.sunset`. -/
def isDayOf (c : CurrentWeather) : Bool :=
  decide (c.dt > c.sunrise) && decide (c.dt < c.sunset)

/-- The `if / else if` chain assigning `bgColors` from the primary condition
string and the day flag. -/
def bgColorsCond (condition : String) (isDay : Bool) : List String :=
  if jsIncludes condition "Clear" then
    if isDay then ["#4a90e2", "#81c7f5"] else ["#0c1445", "#3b5998"]
  else if jsIncludes condition "Clouds" then
    if isDay then ["#6c7a89", "#95a5a6"] else ["#2c3e50", "#34495e"]
  else if jsIncludes condition "Rain" || jsIncludes condition "Drizzle" then
    ["#546e7a", "#37474f"]
  else if jsIncludes condition "Snow" then
    ["#b0c4de", "#a4b0be"]
  else defaultPalette

/-- The `bgColors` value for a render with state `weatherData`: the default
palette until a bundle exists, the condition chain otherwise.  The source
reads `weatherData.current.weather[0].main`, which throws on an empty
`weather` array: that render crash is `none` here. -/
def bgColors (weatherData : Option WeatherData) : Option (List String) :=
  match weatherData with
  | none => some defaultPalette
  | some wd =>
      match wd.current.weather with
      | [] => none
      | w0 :: _ => some (bgColorsCond w0.main (isDayOf wd.current))


/-! ## Sample data for witnesses and counterexamples -/

/-- A concrete forecast body whose primary condition is `Clear`, with the
current timestamp strictly between sunrise and sunset. -/
def clearDayCore : WeatherCore :=
  { current := { dt := 100, sunrise := 50, sunset := 200, temp := 70,
                 feels_like := 68, humidity := 40, uvi := 5, wind_speed := 10,
                 weather := [{ main := "Clear", description := "clear sky" }] },
    hourly := [], daily := [] }

/-- A concrete geocoding hit for Irvine. -/
def irvineHit : GeoHit := { lat := 33, lon := -117, name := "Irvine" }

/-- An oracle where geocoding finds exactly Irvine and the forecast call
succeeds with `clearDayCore`. -/
def envIrvineClear : FetchEnv :=
  { geo := .okParsed [irvineHit], forecast := .okParsed clearDayCore }

/-- An oracle where geocoding succeeds with zero matches. -/
def envZeroMatches : FetchEnv :=
  { geo := .okParsed [], forecast := .notOk }

/-! ## C1: successful pipeline ends Ready with the canonical name -/

/-- C1: for any non-empty city name and non-placeholder key, a geocoding
response with exactly one match followed by a successful forecast response
ends the run in the Ready state (not loading, no error, bundle present), and
the bundle's `name` is the geocoding hit's canonical name attached to the
fetched body — not the raw input string. -/
theorem fetchWeather_success_canonical_name
    (key name : String) (hit : GeoHit) (core : WeatherCore) (st : AppSt)
    (hk : key ≠ API_KEY_PLACEHOLDER) (hn : name ≠ "") :
    (fetchWeather key name ⟨.okParsed [hit], .okParsed core⟩ st).loading = false ∧
    (fetchWeather key name ⟨.okParsed [hit], .okParsed core⟩ st).error = none ∧
    (fetchWeather key name ⟨.okParsed [hit], .okParsed core⟩ st).weatherData =
      some { name := hit.name, current := core.current,
             hourly := core.hourly, daily := core.daily } := by
  simp [fetchWeather, fetchWeatherT, hn, hk]

/-- Witness for C1 at concrete inputs: searching `"irvine"` with canonical
name `"Irvine"` yields a Ready state whose bundle is named `"Irvine"`. -/
theorem fetchWeather_success_canonical_name_witness :
    ("rk" : String) ≠ API_KEY_PLACEHOLDER ∧ ("irvine" : String) ≠ "" ∧
    (("irvine" : String) ≠ irvineHit.name ∧
     (fetchWeather "rk" "irvine" ⟨.okParsed [irvineHit], .okParsed clearDayCore⟩
        initState).loading = false ∧
     (fetchWeather "rk" "irvine" ⟨.okParsed [irvineHit], .okParsed clearDayCore⟩
        initState).error = none ∧
     (fetchWeather "rk" "irvine" ⟨.okParsed [irvineHit], .okParsed clearDayCore⟩
        initState).weatherData =
       some { name := irvineHit.name, current := clearDayCore.current,
              hourly := clearDayCore.hourly, daily := clearDayCore.daily }) :=
  ⟨by decide, by decide,
   by
    have h := fetchWeather_success_canonical_name "rk" "irvine" irvineHit
      clearDayCore initState (by decide) (by decide)
    exact ⟨by decide, h.1, h.2.1, h.2.2⟩⟩

/-! ## C6: zero geocoding matches -/

/-- C6: for any non-empty city name and non-placeholder key, a geocoding
response with zero matches ends the run in the Error state with message
exactly `Could not find city: "<name>"`, interpolating the city name exactly
as passed to the call (no further trimming), and the prior bundle is left
untouched. -/
theorem fetchWeather_zero_matches_message
    (key name : String) (fc : StageOutcome WeatherCore) (st : AppSt)
    (hk : key ≠ API_KEY_PLACEHOLDER) (hn : name ≠ "") :
    (fetchWeather key name ⟨.okParsed [], fc⟩ st).error =
      some ("Could not find city: \"" ++ name ++ "\"") ∧
    (fetchWeather key name ⟨.okParsed [], fc⟩ st).loading = false ∧
    (fetchWeather key name ⟨.okParsed [], fc⟩ st).weatherData = st.weatherData := by
  simp [fetchWeather, fetchWeatherT, hn, hk, caughtError]

/-- Witness for C6: searching `"Nowhereville"` with zero matches produces
exactly `Could not find city: "Nowhereville"`. -/
theorem fetchWeather_zero_matches_message_witness :
    ("rk" : String) ≠ API_KEY_PLACEHOLDER ∧ ("Nowhereville" : String) ≠ "" ∧
    ((fetchWeather "rk" "Nowhereville" ⟨.okParsed [], .notOk⟩ initState).error =
       some "Could not find city: \"Nowhereville\"" ∧
     (fetchWeather "rk" "Nowhereville" ⟨.okParsed [], .notOk⟩ initState).loading = false) :=
  ⟨by decide, by decide,
   by
    have h := fetchWeather_zero_matches_message "rk" "Nowhereville" .notOk
      initState (by decide) (by decide)
    exact ⟨h.1, h.2.1⟩⟩

/-! ## C8: the two HTTP-failure messages are distinct statics -/

/-- C8: a non-ok geocoding response yields exactly
`Failed to fetch city coordinates.`, a non-ok forecast response (after a
one-match geocoding success) yields exactly
`API Key Error. Ensure it is valid and authorized for One Call API.`, and
the two messages differ. -/
theorem fetchWeather_http_failure_messages
    (key name : String) (hit : GeoHit) (fc : StageOutcome WeatherCore) (st : AppSt)
    (hk : key ≠ API_KEY_PLACEHOLDER) (hn : name ≠ "") :
    (fetchWeather key name ⟨.notOk, fc⟩ st).error =
      some "Failed to fetch city coordinates." ∧
    (fetchWeather key name ⟨.okParsed [hit], .notOk⟩ st).error =
      some "API Key Error. Ensure it is valid and authorized for One Call API." ∧
    ("Failed to fetch city coordinates." : String) ≠
      "API Key Error. Ensure it is valid and authorized for One Call API." := by
  refine ⟨?_, ?_, by decide⟩ <;> simp [fetchWeather, fetchWeatherT, hn, hk, caughtError]

/-- Witness for C8 at concrete inputs. -/
theorem fetchWeather_http_failure_messages_witness :
    ("rk" : String) ≠ API_KEY_PLACEHOLDER ∧ ("Irvine" : String) ≠ "" ∧
    ((fetchWeather "rk" "Irvine" ⟨.notOk, .notOk⟩ initState).error =
       some "Failed to fetch city coordinates." ∧
     (fetchWeather "rk" "Irvine" ⟨.okParsed [irvineHit], .notOk⟩ initState).error =
       some "API Key Error. Ensure it is valid and authorized for One Call API.") :=
  ⟨by decide, by decide,
   by
    have h := fetchWeather_http_failure_messages "rk" "Irvine" irvineHit .notOk
      initState (by decide) (by decide)
    exact ⟨h.1, h.2.1⟩⟩

/-! ## C2: the catch-all fallback (corrected)

The source's `catch` surfaces `err.message` for every `Error` instance and
the static fallback only for thrown non-`Error` values.  A malformed-JSON
parse failure throws a `SyntaxError`, which is an `Error` instance, so its
own message is shown, contradicting the claim. -/

/-- C2 counterexample: a malformed geocoding body (a `json()` throw carrying
an `Error` with message `Unexpected end of JSON input`) ends in the Error
state with that message, not with `An unknown error occurred.`. -/
theorem fetchWeather_json_parse_cex :
    (fetchWeather "rk" "Paris"
        ⟨.okParseFail (.errorObj "Unexpected end of JSON input"), .notOk⟩
        initState).error = some "Unexpected end of JSON input" ∧
    (some "Unexpected end of JSON input" : Option String) ≠
      some "An unknown error occurred." := by
  constructor
  · decide
  · decide

/-- C2 amended: the generic fallback `An unknown error occurred.` is shown
exactly for thrown values that are not `Error` instances (at either stage);
a thrown `Error` instance outside the enumerated throws — such as a JSON
parse `SyntaxError` — ends in the Error state with that error's own
message. -/
theorem fetchWeather_catch_messages
    (key name m : String) (hit : GeoHit) (fc : StageOutcome WeatherCore) (st : AppSt)
    (hk : key ≠ API_KEY_PLACEHOLDER) (hn : name ≠ "") :
    (fetchWeather key name ⟨.throwVal .nonErrorVal, fc⟩ st).error =
      some "An unknown error occurred." ∧
    (fetchWeather key name ⟨.okParsed [hit], .throwVal .nonErrorVal⟩ st).error =
      some "An unknown error occurred." ∧
    (fetchWeather key name ⟨.okParseFail (.errorObj m), fc⟩ st).error = some m ∧
    (fetchWeather key name ⟨.okParsed [hit], .okParseFail (.errorObj m)⟩ st).error =
      some m := by
  refine ⟨?_, ?_, ?_, ?_⟩ <;> simp [fetchWeather, fetchWeatherT, hn, hk, caughtError]

/-- Witness for C2 amended at concrete inputs. -/
theorem fetchWeather_catch_messages_witness :
    ("rk" : String) ≠ API_KEY_PLACEHOLDER ∧ ("Paris" : String) ≠ "" ∧
    ((fetchWeather "rk" "Paris" ⟨.throwVal .nonErrorVal, .notOk⟩ initState).error =
       some "An unknown error occurred." ∧
     (fetchWeather "rk" "Paris" ⟨.okParseFail (.errorObj "bad json"), .notOk⟩
        initState).error = some "bad json") :=
  ⟨by decide, by decide,
   by
    have h := fetchWeather_catch_messages "rk" "Paris" "bad json" irvineHit .notOk
      initState (by decide) (by decide)
    exact ⟨h.1, h.2.2.1⟩⟩

/-! ## C3: empty / whitespace-only submission (corrected)

`handleSearch` is guarded by JavaScript truthiness of the *untrimmed*
`searchInput`.  The empty string is a complete no-op, but a whitespace-only
string passes the guard: the search field is cleared and `city` is set to
the trimmed value `""` (whose refetch then aborts on the `!cityName` guard
before any request).  The state is therefore not left unchanged. -/

/-- C3 counterexample: submitting the single-space string from a freshly
mounted state issues no request, but changes the state — the city becomes
`""` and the search field is cleared. -/
theorem submit_whitespace_changes_state_cex :
    jsTrim " " = "" ∧
    (submitT "rk" ⟨.notOk, .notOk⟩
        { city := "Irvine", weatherData := none, loading := true,
          error := none, searchInput := " " }).2 = [] ∧
    (submit "rk" ⟨.notOk, .notOk⟩
        { city := "Irvine", weatherData := none, loading := true,
          error := none, searchInput := " " }) ≠
      { city := "Irvine", weatherData := none, loading := true,
        error := none, searchInput := " " } := by
  refine ⟨by decide, by decide, by decide⟩

/-- C3 amended: submitting the empty string is a complete no-op (no request,
state unchanged); submitting a whitespace-only (but non-empty) string also
issues no network request, but clears the search field and sets `city` to
the empty string. -/
theorem submit_blank_no_request (key : String) (env : FetchEnv) (st : AppSt) :
    (st.searchInput = "" → submitT key env st = (st, [])) ∧
    (st.searchInput ≠ "" → jsTrim st.searchInput = "" →
      (submitT key env st).2 = [] ∧
      (submitT key env st).1 = { st with city := "", searchInput := "" }) := by
  constructor
  · intro h
    simp [submitT, handleSearch, h]
  · intro h ht
    by_cases hc : st.city = ""
    · constructor <;> simp [submitT, handleSearch, h, ht, hc]
    · constructor <;> simp [submitT, handleSearch, fetchWeatherT, h, ht, hc]

/-- Witness for C3 amended: both branches at concrete states. -/
theorem submit_blank_no_request_witness :
    (initState.searchInput = "" ∧
      submitT "rk" ⟨.notOk, .notOk⟩ initState = (initState, [])) ∧
    (({ initState with searchInput := " " } : AppSt).searchInput ≠ "" ∧
      jsTrim ({ initState with searchInput := " " } : AppSt).searchInput = "" ∧
      (submitT "rk" ⟨.notOk, .notOk⟩ { initState with searchInput := " " }).2 = [] ∧
      (submitT "rk" ⟨.notOk, .notOk⟩ { initState with searchInput := " " }).1 =
        { initState with city := "", searchInput := "" }) :=
  ⟨⟨by decide,
    (submit_blank_no_request "rk" ⟨.notOk, .notOk⟩ initState).1 (by decide)⟩,
   ⟨by decide, by decide,
    (submit_blank_no_request "rk" ⟨.notOk, .notOk⟩
        { initState with searchInput := " " }).2 (by decide) (by decide)⟩⟩

/-! ## C4: palette and stale data in non-Ready states (corrected)

`bgColors` is computed from the `weatherData` slot on every render, and no
error path clears that slot, so an Error state that follows a successful
fetch still derives its palette from the stale bundle. -/

/-- C4 counterexample: after a successful run for Irvine (Clear, daytime), a
zero-match run for `Nowhereville` ends in the Error state — yet the derived
palette is still the Clear-day palette of the stale bundle, not the default
palette. -/
theorem stale_palette_on_error_cex :
    (fetchWeather "rk" "Nowhereville" envZeroMatches
        (fetchWeather "rk" "Irvine" envIrvineClear initState)).error =
      some "Could not find city: \"Nowhereville\"" ∧
    (fetchWeather "rk" "Nowhereville" envZeroMatches
        (fetchWeather "rk" "Irvine" envIrvineClear initState)).loading = false ∧
    bgColors (fetchWeather "rk" "Nowhereville" envZeroMatches
        (fetchWeather "rk" "Irvine" envIrvineClear initState)).weatherData =
      some ["#4a90e2", "#81c7f5"] ∧
    (["#4a90e2", "#81c7f5"] : List String) ≠ defaultPalette := by
  refine ⟨by decide, by decide, by decide, by decide⟩

/-- C4 amended: the palette is the fixed default exactly while no bundle has
ever been fetched (`weatherData` is `null`); error outcomes do not reset the
bundle — whenever a run ends with an error set, the `weatherData` slot (and
hence the palette derived from it) is exactly what it was before the run. -/
theorem palette_default_without_bundle
    (key name : String) (env : FetchEnv) (st : AppSt)
    (h : (fetchWeather key name env st).error ≠ none) :
    bgColors none = some defaultPalette ∧
    (fetchWeather key name env st).weatherData = st.weatherData := by
  refine ⟨rfl, ?_⟩
  by_cases hn : name = ""
  · simp [fetchWeather, fetchWeatherT, hn]
  · by_cases hk : key = API_KEY_PLACEHOLDER
    · simp [fetchWeather, fetchWeatherT, hn, hk]
    · rcases env with ⟨geo, fc⟩
      cases geo with
      | throwVal e => simp [fetchWeather, fetchWeatherT, hn, hk]
      | notOk => simp [fetchWeather, fetchWeatherT, hn, hk]
      | okParseFail e => simp [fetchWeather, fetchWeatherT, hn, hk]
      | okParsed geoData =>
        cases geoData with
        | nil => simp [fetchWeather, fetchWeatherT, hn, hk]
        | cons hit rest =>
          cases fc with
          | throwVal e => simp [fetchWeather, fetchWeatherT, hn, hk]
          | notOk => simp [fetchWeather, fetchWeatherT, hn, hk]
          | okParseFail e => simp [fetchWeather, fetchWeatherT, hn, hk]
          | okParsed core =>
            exact absurd (by simp [fetchWeather, fetchWeatherT, hn, hk]) h

/-- Witness for C4 amended: the zero-match error run for `Nowhereville` from
the initial state keeps `weatherData` at `none`. -/
theorem palette_default_without_bundle_witness :
    (fetchWeather "rk" "Nowhereville" envZeroMatches initState).error ≠ none ∧
    (bgColors none = some defaultPalette ∧
     (fetchWeather "rk" "Nowhereville" envZeroMatches initState).weatherData =
       initState.weatherData) :=
  ⟨by decide,
   palette_default_without_bundle "rk" "Nowhereville" envZeroMatches initState
     (by decide)⟩

/-! ## C5: theme rule order and exact palettes -/

/-- C5: the theme chain evaluates Clear, Clouds, Rain/Drizzle, Snow in that
fixed order with first match winning, returns exactly the listed palettes,
falls back to the 3-stop default when nothing matches, and a condition
containing both `Clear` and `Clouds` takes the Clear palette. -/
theorem bgColors_rule_order (c : String) (d : Bool) :
    (jsIncludes c "Clear" = true →
      bgColorsCond c d =
        if d then ["#4a90e2", "#81c7f5"] else ["#0c1445", "#3b5998"]) ∧
    (jsIncludes c "Clear" = false → jsIncludes c "Clouds" = true →
      bgColorsCond c d =
        if d then ["#6c7a89", "#95a5a6"] else ["#2c3e50", "#34495e"]) ∧
    (jsIncludes c "Clear" = false → jsIncludes c "Clouds" = false →
      (jsIncludes c "Rain" = true ∨ jsIncludes c "Drizzle" = true) →
      bgColorsCond c d = ["#546e7a", "#37474f"]) ∧
    (jsIncludes c "Clear" = false → jsIncludes c "Clouds" = false →
      jsIncludes c "Rain" = false → jsIncludes c "Drizzle" = false →
      jsIncludes c "Snow" = true → bgColorsCond c d = ["#b0c4de", "#a4b0be"]) ∧
    (jsIncludes c "Clear" = false → jsIncludes c "Clouds" = false →
      jsIncludes c "Rain" = false → jsIncludes c "Drizzle" = false →
      jsIncludes c "Snow" = false → bgColorsCond c d = defaultPalette) ∧
    bgColorsCond "Clear Clouds" d =
      (if d then ["#4a90e2", "#81c7f5"] else ["#0c1445", "#3b5998"]) := by
  refine ⟨?_, ?_, ?_, ?_, ?_, ?_⟩
  · intro h1; simp [bgColorsCond, h1]
  · intro h1 h2; simp [bgColorsCond, h1, h2]
  · intro h1 h2 h3
    rcases h3 with h3 | h3 <;> simp [bgColorsCond, h1, h2, h3]
  · intro h1 h2 h3 h4 h5; simp [bgColorsCond, h1, h2, h3, h4, h5]
  · intro h1 h2 h3 h4 h5; simp [bgColorsCond, h1, h2, h3, h4, h5]
  · cases d <;> decide

/-- Witness for C5: a condition containing `Clear` (rule 1) at daytime gives
the Clear-day palette. -/
theorem bgColors_rule_order_witness :
    jsIncludes "Clear sky" "Clear" = true ∧
    bgColorsCond "Clear sky" true = ["#4a90e2", "#81c7f5"] :=
  ⟨by decide,
   by
    have h := (bgColors_rule_order "Clear sky" true).1 (by decide)
    simpa using h⟩

/-! ## C7: strict day/night boundary -/

/-- A current-conditions record whose timestamp sits exactly at sunrise. -/
def sunriseEdgeCurrent : CurrentWeather :=
  { dt := 100, sunrise := 100, sunset := 200, temp := 0, feels_like := 0,
    humidity := 0, uvi := 0, wind_speed := 0, weather := [] }

/-- C7: the day flag used by the theme derivation holds exactly when
`sunrise < dt` and `dt < sunset`, both strict; at `dt = sunrise` or
`dt = sunset` it is false (night). -/
theorem isDay_strict_bounds (c : CurrentWeather) :
    (isDayOf c = true ↔ c.sunrise < c.dt ∧ c.dt < c.sunset) ∧
    (c.dt = c.sunrise → isDayOf c = false) ∧
    (c.dt = c.sunset → isDayOf c = false) := by
  refine ⟨?_, ?_, ?_⟩
  · simp [isDayOf]
  · intro h; simp [isDayOf, h]
  · intro h; simp [isDayOf, h]

/-- Witness for C7: at a timestamp equal to sunrise the flag is night. -/
theorem isDay_strict_bounds_witness :
    sunriseEdgeCurrent.dt = sunriseEdgeCurrent.sunrise ∧
    isDayOf sunriseEdgeCurrent = false :=
  ⟨by decide, (isDay_strict_bounds sunriseEdgeCurrent).2.1 (by decide)⟩

/-! ## C9: side effects of a successful submission -/

/-- C9: for every submission that passes the `handleSearch` guard (in
particular every one whose resolution later succeeds), the two side effects
happen together: `city` becomes the trimmed submitted text and the search
field is cleared, while the remaining slots are untouched by the handler. -/
theorem handleSearch_effects (st : AppSt) (h : st.searchInput ≠ "") :
    (handleSearch st).city = jsTrim st.searchInput ∧
    (handleSearch st).searchInput = "" ∧
    (handleSearch st).weatherData = st.weatherData ∧
    (handleSearch st).loading = st.loading ∧
    (handleSearch st).error = st.error := by
  refine ⟨?_, ?_, ?_, ?_, ?_⟩ <;> simp [handleSearch, h]

/-- Witness for C9: submitting `"  New York "` sets the city to the trimmed
text `"New York"` and clears the field. -/
theorem handleSearch_effects_witness :
    ({ initState with searchInput := "  New York " } : AppSt).searchInput ≠ "" ∧
    (jsTrim "  New York " = "New York" ∧
     (handleSearch { initState with searchInput := "  New York " }).city =
       jsTrim "  New York " ∧
     (handleSearch { initState with searchInput := "  New York " }).searchInput = "") :=
  ⟨by decide,
   by
    have h := handleSearch_effects { initState with searchInput := "  New York " }
      (by decide)
    exact ⟨by decide, h.1, h.2.1⟩⟩

/-! ## C10: raw interpolation of the city name into the geocoding URL -/

/-- A list is a prefix of itself followed by anything. -/
theorem isPrefixOf_self_append (l t : List Char) : l.isPrefixOf (l ++ t) = true := by
  induction l with
  | nil => cases t <;> rfl
  | cons c cs ih => simp [List.isPrefixOf, ih]

/-- The empty pattern is contained in every list. -/
theorem listContains_nil (l : List Char) : listContains [] l = true := by
  cases l with
  | nil => rfl
  | cons c cs => simp [listContains, List.isPrefixOf]

/-- `listContains` finds a pattern that occurs between any two contexts. -/
theorem listContains_append_self (pre sub post : List Char) :
    listContains sub (pre ++ (sub ++ post)) = true := by
  induction pre with
  | nil =>
    cases sub with
    | nil => simp [listContains_nil]
    | cons c cs => simp [listContains, isPrefixOf_self_append]
  | cons p ps ih => simp [listContains, ih]

/-- JavaScript `includes` finds a substring spliced between any two
strings. -/
theorem jsIncludes_append (pre s post : String) :
    jsIncludes (pre ++ s ++ post) s = true := by
  have hd : (pre ++ s ++ post).data = pre.data ++ (s.data ++ post.data) := by
    simp [String.data_append]
  simp [jsIncludes, hd, listContains_append_self]

/-- C10: the geocoding URL is built by raw template-literal interpolation:
it is literally the query stem, then the submitted name verbatim (so spaces,
`&` or `#` pass unescaped), then the remaining parameters; and whenever the
pipeline issues any request, the first one is a geocoding request to exactly
this URL. -/
theorem geoUrl_raw_name
    (key name : String) (env : FetchEnv) (st : AppSt)
    (hk : key ≠ API_KEY_PLACEHOLDER) (hn : name ≠ "") :
    geoUrl key name =
      "https://api.openweathermap.org/geo/1.0/direct?q=" ++ name ++
        ("&limit=1&appid=" ++ key) ∧
    jsIncludes (geoUrl key name) name = true ∧
    (fetchWeatherT key name env st).2.head? =
      some (NetRequest.geoReq (geoUrl key name)) := by
  have hts : ∀ s : String, toString s = s := fun _ => rfl
  have hz : geoUrl key name =
      "https://api.openweathermap.org/geo/1.0/direct?q=" ++ name ++
        ("&limit=1&appid=" ++ key) := by
    simp [geoUrl, hts, String.append_assoc, String.append_empty]
  refine ⟨hz, ?_, ?_⟩
  · rw [hz, ← String.append_assoc]
    have := jsIncludes_append "https://api.openweathermap.org/geo/1.0/direct?q="
      name ("&limit=1&appid=" ++ key)
    simpa [String.append_assoc] using this
  · rcases env with ⟨geo, fc⟩
    cases geo with
    | throwVal e => simp [fetchWeatherT, hn, hk]
    | notOk => simp [fetchWeatherT, hn, hk]
    | okParseFail e => simp [fetchWeatherT, hn, hk]
    | okParsed geoData =>
      cases geoData with
      | nil => simp [fetchWeatherT, hn, hk]
      | cons hit rest =>
        cases fc <;> simp [fetchWeatherT, hn, hk]

/-- Witness for C10: a name with a space, an ampersand and a hash sign is
embedded verbatim in the geocoding URL. -/
theorem geoUrl_raw_name_witness :
    ("rk" : String) ≠ API_KEY_PLACEHOLDER ∧ ("a b&c#d" : String) ≠ "" ∧
    (geoUrl "rk" "a b&c#d" =
       "https://api.openweathermap.org/geo/1.0/direct?q=" ++ "a b&c#d" ++
         ("&limit=1&appid=" ++ "rk") ∧
     jsIncludes (geoUrl "rk" "a b&c#d") "a b&c#d" = true ∧
     (fetchWeatherT "rk" "a b&c#d" ⟨.notOk, .notOk⟩ initState).2.head? =
       some (NetRequest.geoReq (geoUrl "rk" "a b&c#d"))) :=
  ⟨by decide, by decide,
   geoUrl_raw_name "rk" "a b&c#d" ⟨.notOk, .notOk⟩ initState
     (by decide) (by decide)⟩
